import Mathlib

/-!
Panasonic tablet button driver (panasonic-hbtn.c)

A shallow embedding of the driver in `src/panasonic-hbtn.c`.

The driver is kernel glue: every observable thing it does is a call on a
collaborator (the ACPI interpreter, the ACPI netlink broadcast, the input
core, the sparse-keymap helper, the slab allocator).  The embedding therefore
has three ingredients:

* `World`: the memory the driver reads and writes (the `acpi_device`, the
  `pcc_acpi` context, the `input_dev`), as typed heaps indexed by address;
  a pointer is an `Option Nat`, `none` being `NULL`;
* `Effect`: one constructor per collaborator entry point; each driver function
  returns the list of calls it made, in program order;
* `Fault`: what C leaves undefined (reading through `NULL`, touching released
  memory).  A driver function returns `Except Fault _`.

What the environment decides (does the allocation succeed, what does the `HINF`
method answer) is an explicit argument of the function that asks.
-/

namespace PanasonicHbtn

/-! ## Constants -/

/-- The ACPI method evaluated for the button status (`METHOD_HBTN_QUERY`). -/
def METHOD_HBTN_QUERY : String := "HINF"

/-- The only notification code the driver reacts to (`HBTN_NOTIFY`). -/
def HBTN_NOTIFY : Nat := 0x80

def ACPI_PCC_DRIVER_NAME : String := "Panasonic Tablet Button Support"
def ACPI_PCC_DEVICE_NAME : String := "TabletButton"
def ACPI_PCC_CLASS : String := "pcc"
def ACPI_PCC_INPUT_PHYS : String := "panasonic/hbtn0"

/-! Values from `linux/input.h` and `errno.h`. -/

def EV_SYN : Nat := 0x00
def EV_KEY : Nat := 0x01
def EV_MSC : Nat := 0x04
def EV_SW : Nat := 0x05
def SYN_REPORT : Nat := 0
def MSC_SCAN : Nat := 0x04
def BUS_HOST : Nat := 0x19

def KEY_RESERVED : Nat := 0
def KEY_ENTER : Nat := 28
def KEY_COFFEE : Nat := 152
def KEY_SCREENLOCK : Nat := KEY_COFFEE
def KEY_DIRECTION : Nat := 153
def KEY_KEYBOARD : Nat := 0x176

def ENOMEM : Int := 12
def EINVAL : Int := 22

/-- The ACPI status of a successful evaluation (`AE_OK`). -/
def AE_OK : Nat := 0

/-- The kernel test `ACPI_SUCCESS(a)`, which is `!(a)`. -/
def ACPI_SUCCESS (rc : Nat) : Bool := rc == AE_OK

/-! ## Keymap table -/

/-- Entry kinds of a sparse keymap (`KE_*` in `linux/input/sparse-keymap.h`). -/
inductive ke_type where
  | KE_END
  | KE_KEY
  | KE_SW
  | KE_VSW
  | KE_IGNORE
  deriving DecidableEq, Repr

/-- One `struct key_entry`.  `keycode` is the first member of the entry's union,
the one the initialisers of `panasonic_keymap` fill. -/
structure key_entry where
  type : ke_type
  code : Nat
  keycode : Nat
  deriving DecidableEq, Repr

/-- The table `panasonic_keymap`, terminator included. -/
def panasonic_keymap : List key_entry :=
  [ ⟨.KE_KEY, 0x0, KEY_RESERVED⟩,
    ⟨.KE_KEY, 0x4, KEY_SCREENLOCK⟩,
    ⟨.KE_KEY, 0x6, KEY_DIRECTION⟩,
    ⟨.KE_KEY, 0x8, KEY_ENTER⟩,
    ⟨.KE_KEY, 0xA, KEY_KEYBOARD⟩,
    ⟨.KE_END, 0, 0⟩ ]

/-- The scan of `sparse_keymap_entry_from_scancode`:
`for (key = dev->keycode; key->type != KE_END; key++) if (code == key->code) return key;`
then `return NULL`.  An array that ends is one whose terminator was reached. -/
def keymap_scan : List key_entry → Nat → Option key_entry
  | [], _ => none
  | key :: rest, code =>
    if key.type = .KE_END then none
    else if code = key.code then some key
    else keymap_scan rest code

/-- The entries of a table that come before its `KE_END` terminator. -/
def keymap_entries : List key_entry → List key_entry
  | [] => []
  | key :: rest => if key.type = .KE_END then [] else key :: keymap_entries rest

/-- What `sparse_keymap_setup` copies into the device: the entries up to and
including the terminator. -/
def keymap_copy : List key_entry → List key_entry
  | [] => []
  | key :: rest => if key.type = .KE_END then [key] else key :: keymap_copy rest

/-! ## Memory -/

/-- The fields of `struct acpi_device` the driver touches. -/
structure acpi_device where
  handle : Nat
  driver_data : Option Nat
  device_name : String
  device_class : String
  dev_name : String
  deriving DecidableEq, Repr

/-- The driver context `struct pcc_acpi`. -/
structure pcc_acpi where
  handle : Nat
  device : Option Nat
  input_dev : Option Nat
  deriving DecidableEq, Repr

/-- The fields of `struct input_dev` the driver and the sparse-keymap helper
touch, and whether the input core has the device registered. -/
structure input_dev where
  name : String
  phys : String
  bustype : Nat
  vendor : Nat
  product : Nat
  version : Nat
  keycode : Option (List key_entry)
  registered : Bool
  deriving DecidableEq, Repr

/-- The memory seen by the driver: live objects by address. -/
structure World where
  devices : Nat → Option acpi_device
  pccs : Nat → Option pcc_acpi
  inputs : Nat → Option input_dev

/-- Store `v` at address `a`. -/
def poke {α : Type} (h : Nat → Option α) (a : Nat) (v : Option α) : Nat → Option α :=
  fun b => if b = a then v else h b

/-- Behaviour C leaves undefined. -/
inductive Fault where
  | null_deref
  | invalid_access
  | double_free
  deriving DecidableEq, Repr

/-- Calls on collaborators, with their arguments (and, for the calls whose
outcome the environment decides, that outcome). -/
inductive Effect where
  | acpi_evaluate_integer (handle : Nat) (method : String)
  | acpi_bus_generate_netlink_event (device_class bus_id : String) (ty : Nat) (data : Int)
  | input_event (dev : Nat) (ty code value : Nat)
  | kzalloc (ret : Option Nat)
  | kfree (p : Nat)
  | input_allocate_device (ret : Option Nat)
  | sparse_keymap_setup (dev : Nat) (err : Int)
  | input_register_device (dev : Nat) (err : Int)
  | sparse_keymap_free (dev : Nat)
  | input_free_device (dev : Nat)
  | input_unregister_device (dev : Nat)
  deriving DecidableEq, Repr

/-! ## Machine integers -/

/-- Conversion of an `unsigned long long` to `int` (the type of the `data`
parameter of `acpi_bus_generate_netlink_event`): the low 32 bits, read in
two's complement. -/
def to_int (x : Nat) : Int :=
  if x % 2 ^ 32 < 2 ^ 31 then ((x % 2 ^ 32 : Nat) : Int) else ((x % 2 ^ 32 : Nat) : Int) - 2 ^ 32

/-- Conversion to `unsigned int` (the type of the `code` parameter of
`sparse_keymap_entry_from_scancode`). -/
def to_uint (x : Nat) : Nat := x % 2 ^ 32

/-! ## The input side: sparse-keymap helper and input core entry points -/

/-- The wrapper `input_report_key(dev, code, value)`, which is
`input_event(dev, EV_KEY, code, !!value)`. -/
def input_report_key (dev code value : Nat) : List Effect :=
  [.input_event dev EV_KEY code (if value = 0 then 0 else 1)]

/-- The wrapper `input_report_switch(dev, code, value)`. -/
def input_report_switch (dev code value : Nat) : List Effect :=
  [.input_event dev EV_SW code (if value = 0 then 0 else 1)]

/-- The wrapper `input_sync(dev)`, which is `input_event(dev, EV_SYN, SYN_REPORT, 0)`. -/
def input_sync (dev : Nat) : List Effect :=
  [.input_event dev EV_SYN SYN_REPORT 0]

/-- The kernel helper `sparse_keymap_report_entry(dev, ke, value, autorelease)`.
A `KE_KEY` entry reports its scancode, then the key, then a sync, and a release
with a second sync when `value && autorelease`.  The switch kinds read the
union as `sw.code` (low byte) and `sw.value` (next byte). -/
def sparse_keymap_report_entry (dev : Nat) (ke : key_entry) (value : Nat)
    (autorelease : Bool) : List Effect :=
  match ke.type with
  | .KE_KEY =>
    [.input_event dev EV_MSC MSC_SCAN ke.code]
      ++ input_report_key dev ke.keycode value
      ++ input_sync dev
      ++ (if value ≠ 0 ∧ autorelease = true then
            input_report_key dev ke.keycode 0 ++ input_sync dev
          else [])
  | .KE_SW =>
    input_report_switch dev (ke.keycode % 256) (ke.keycode / 256 % 256) ++ input_sync dev
  | .KE_VSW =>
    input_report_switch dev (ke.keycode % 256) value ++ input_sync dev
  | .KE_IGNORE => []
  | .KE_END => []

/-- The kernel helper `sparse_keymap_entry_from_scancode(dev, code)`: scans the
table installed in `dev->keycode`. -/
def sparse_keymap_entry_from_scancode (w : World) (dev : Option Nat) (code : Nat) :
    Except Fault (Option key_entry) :=
  match dev with
  | none => .error .null_deref
  | some i =>
    match w.inputs i with
    | none => .error .invalid_access
    | some idev =>
      match idev.keycode with
      | none => .error .null_deref
      | some table => .ok (keymap_scan table code)

/-! ## Notification path -/

/-- The answer of `acpi_evaluate_integer(handle, "HINF", NULL, &result)`: the
returned status and the integer stored in `result`. -/
structure hinf_reply where
  status : Nat
  value : Nat
  deriving DecidableEq, Repr

/-- The function `acpi_pcc_generate_keyinput`.  Returns the calls made.  The
status `result` is an `unsigned long long`; the broadcast receives it through
its `int data` parameter and the lookup receives `result & 0xe` through its
`unsigned int code` parameter. -/
def acpi_pcc_generate_keyinput (w : World) (pcc : Option Nat) (q : hinf_reply) :
    Except Fault (World × List Effect) :=
  match pcc with
  | none => .error .null_deref
  | some p =>
    match w.pccs p with
    | none => .error .invalid_access
    | some c =>
      let hotk_input_dev := c.input_dev
      let t1 := [Effect.acpi_evaluate_integer c.handle METHOD_HBTN_QUERY]
      if ACPI_SUCCESS q.status = false then .ok (w, t1)
      else
        let result := q.value % 2 ^ 64
        match c.device with
        | none => .error .null_deref
        | some dv =>
          match w.devices dv with
          | none => .error .invalid_access
          | some d =>
            let t2 := t1 ++ [Effect.acpi_bus_generate_netlink_event d.device_class d.dev_name
                        HBTN_NOTIFY (to_int result)]
            match sparse_keymap_entry_from_scancode w hotk_input_dev (to_uint (result &&& 0xe)) with
            | .error f => .error f
            | .ok none => .ok (w, t2)
            | .ok (some ke) =>
              match hotk_input_dev with
              | none => .error .null_deref
              | some i =>
                .ok (w, t2 ++ sparse_keymap_report_entry i ke
                              (if result &&& 0x1 ≠ 0 then 0 else 1) false)

/-- The macro `acpi_driver_data(d)`, which is `(d)->driver_data`. -/
def acpi_driver_data (w : World) (device : Option Nat) : Except Fault (Option Nat) :=
  match device with
  | none => .error .null_deref
  | some dv =>
    match w.devices dv with
    | none => .error .invalid_access
    | some d => .ok d.driver_data

/-- The handler `acpi_pcc_hbtn_notify`.  The reply `q` is what the hardware would
answer if asked during this call. -/
def acpi_pcc_hbtn_notify (w : World) (device : Option Nat) (event : Nat) (q : hinf_reply) :
    Except Fault (World × List Effect) :=
  match acpi_driver_data w device with
  | .error f => .error f
  | .ok pcc =>
    if event = HBTN_NOTIFY then acpi_pcc_generate_keyinput w pcc q
    else .ok (w, [])

/-! ## Lifecycle: collaborators -/

/-- What the environment decides during one attach: the result of `kzalloc`
and of `input_allocate_device` (`none` is `NULL`), and the error codes returned
by `sparse_keymap_setup` and `input_register_device` (0 is success). -/
structure alloc_env where
  kzalloc : Option Nat
  input_allocate_device : Option Nat
  sparse_keymap_setup : Int
  input_register_device : Int
  deriving DecidableEq, Repr

/-- A zero-filled `struct pcc_acpi`, as `kzalloc` returns it. -/
def pcc_zero : pcc_acpi := ⟨0, none, none⟩

/-- A fresh `struct input_dev`, as `input_allocate_device` returns it. -/
def input_dev_zero : input_dev := ⟨"", "", 0, 0, 0, 0, none, false⟩

/-- The kernel helper `sparse_keymap_setup(dev, keymap, NULL)`: on success the
device owns a copy of the table; on failure nothing is installed. -/
def sparse_keymap_setup (w : World) (dev : Nat) (keymap : List key_entry) (err : Int) :
    Except Fault (Int × World) :=
  if err ≠ 0 then .ok (err, w)
  else
    match w.inputs dev with
    | none => .error .invalid_access
    | some idev =>
      let idev1 : input_dev := { idev with keycode := some (keymap_copy keymap) }
      .ok (0, { w with inputs := poke w.inputs dev (some idev1) })

/-- The kernel helper `sparse_keymap_free(dev)`: `kfree(dev->keycode)`, then
`dev->keycode = NULL`. -/
def sparse_keymap_free (w : World) (dev : Option Nat) : Except Fault World :=
  match dev with
  | none => .error .null_deref
  | some i =>
    match w.inputs i with
    | none => .error .invalid_access
    | some idev => .ok { w with inputs := poke w.inputs i (some { idev with keycode := none }) }

/-- The input core entry `input_register_device(dev)`. -/
def input_register_device (w : World) (dev : Nat) (err : Int) : Except Fault (Int × World) :=
  if err ≠ 0 then .ok (err, w)
  else
    match w.inputs dev with
    | none => .error .invalid_access
    | some idev =>
      .ok (0, { w with inputs := poke w.inputs dev (some { idev with registered := true }) })

/-- The input core entry `input_unregister_device(dev)`: the device leaves the
input core, which drops the last reference and releases it. -/
def input_unregister_device (w : World) (dev : Option Nat) : Except Fault World :=
  match dev with
  | none => .error .null_deref
  | some i =>
    match w.inputs i with
    | none => .error .invalid_access
    | some _ => .ok { w with inputs := poke w.inputs i none }

/-- The input core entry `input_free_device(dev)`, for a device that was never
registered. -/
def input_free_device (w : World) (dev : Nat) : Except Fault World :=
  match w.inputs dev with
  | none => .error .double_free
  | some _ => .ok { w with inputs := poke w.inputs dev none }

/-- The allocator entry `kfree(p)` on a context. -/
def kfree (w : World) (p : Nat) : Except Fault World :=
  match w.pccs p with
  | none => .error .double_free
  | some _ => .ok { w with pccs := poke w.pccs p none }

/-! ## Lifecycle: driver functions -/

/-- The function `acpi_pcc_init_input`. -/
def acpi_pcc_init_input (w : World) (pcc : Nat) (env : alloc_env) :
    Except Fault (Int × World × List Effect) :=
  match env.input_allocate_device with
  | none => .ok (-ENOMEM, w, [.input_allocate_device none])
  | some i =>
    let t0 := [Effect.input_allocate_device (some i)]
    let w0 := { w with inputs := poke w.inputs i (some input_dev_zero) }
    let idev : input_dev :=
      { input_dev_zero with
          name := ACPI_PCC_DRIVER_NAME, phys := ACPI_PCC_INPUT_PHYS,
          bustype := BUS_HOST, vendor := 0x0001, product := 0x0001, version := 0x0100 }
    let w1 := { w0 with inputs := poke w0.inputs i (some idev) }
    match sparse_keymap_setup w1 i panasonic_keymap env.sparse_keymap_setup with
    | .error f => .error f
    | .ok (error, w2) =>
      let t1 := t0 ++ [Effect.sparse_keymap_setup i error]
      if error ≠ 0 then
        -- err_free_dev
        match input_free_device w2 i with
        | .error f => .error f
        | .ok w3 => .ok (error, w3, t1 ++ [.input_free_device i])
      else
        match input_register_device w2 i env.input_register_device with
        | .error f => .error f
        | .ok (error, w3) =>
          let t2 := t1 ++ [Effect.input_register_device i error]
          if error ≠ 0 then
            -- err_free_keymap, then err_free_dev
            match sparse_keymap_free w3 (some i) with
            | .error f => .error f
            | .ok w4 =>
              match input_free_device w4 i with
              | .error f => .error f
              | .ok w5 => .ok (error, w5, t2 ++ [.sparse_keymap_free i, .input_free_device i])
          else
            match w3.pccs pcc with
            | none => .error .invalid_access
            | some c =>
              .ok (0, { w3 with pccs := poke w3.pccs pcc (some { c with input_dev := some i }) }, t2)

/-- The function `acpi_pcc_destroy_input`. -/
def acpi_pcc_destroy_input (w : World) (pcc : Nat) : Except Fault (World × List Effect) :=
  match w.pccs pcc with
  | none => .error .invalid_access
  | some c =>
    match sparse_keymap_free w c.input_dev with
    | .error f => .error f
    | .ok w1 =>
      match input_unregister_device w1 c.input_dev with
      | .error f => .error f
      | .ok w2 =>
        match c.input_dev with
        | none => .error .null_deref
        | some i => .ok (w2, [.sparse_keymap_free i, .input_unregister_device i])

/-- The entry point `acpi_pcc_hbtn_add`. -/
def acpi_pcc_hbtn_add (w : World) (device : Option Nat) (env : alloc_env) :
    Except Fault (Int × World × List Effect) :=
  match device with
  | none => .ok (-EINVAL, w, [])
  | some dv =>
    match env.kzalloc with
    | none => .ok (-ENOMEM, w, [.kzalloc none])
    | some p =>
      let t0 := [Effect.kzalloc (some p)]
      let w0 := { w with pccs := poke w.pccs p (some pcc_zero) }
      match w0.devices dv with
      | none => .error .invalid_access
      | some d =>
        let c : pcc_acpi := { pcc_zero with device := some dv, handle := d.handle }
        let w1 := { w0 with pccs := poke w0.pccs p (some c) }
        let d1 : acpi_device :=
          { d with driver_data := some p, device_name := ACPI_PCC_DEVICE_NAME,
                   device_class := ACPI_PCC_CLASS }
        let w2 := { w1 with devices := poke w1.devices dv (some d1) }
        match acpi_pcc_init_input w2 p env with
        | .error f => .error f
        | .ok (result, w3, t1) =>
          if result ≠ 0 then
            -- out_hbtn
            match kfree w3 p with
            | .error f => .error f
            | .ok w4 => .ok (result, w4, t0 ++ t1 ++ [.kfree p])
          else .ok (0, w3, t0 ++ t1)

/-- The entry point `acpi_pcc_hbtn_remove`.  The context pointer is loaded from
the device (line 243) before the test of line 245. -/
def acpi_pcc_hbtn_remove (w : World) (device : Option Nat) :
    Except Fault (Int × World × List Effect) :=
  match acpi_driver_data w device with
  | .error f => .error f
  | .ok pcc =>
    match device, pcc with
    | none, _ => .ok (-EINVAL, w, [])
    | _, none => .ok (-EINVAL, w, [])
    | some _, some p =>
      match acpi_pcc_destroy_input w p with
      | .error f => .error f
      | .ok (w1, t) =>
        match kfree w1 p with
        | .error f => .error f
        | .ok w2 => .ok (0, w2, t ++ [.kfree p])

/-- A sequence of notifications delivered one after the other to one device:
each is an event code and the reply the hardware would give.  The calls made
are collected in order. -/
def deliver (w : World) (device : Option Nat) :
    List (Nat × hinf_reply) → Except Fault (World × List Effect)
  | [] => .ok (w, [])
  | (event, q) :: rest =>
    match acpi_pcc_hbtn_notify w device event q with
    | .error f => .error f
    | .ok (w1, t) =>
      match deliver w1 device rest with
      | .error f => .error f
      | .ok (w2, ts) => .ok (w2, t ++ ts)

/-- The calls one notification makes when handled alone in world `w`
(none when the handler faults). -/
def effects_alone (w : World) (device : Option Nat) (n : Nat × hinf_reply) : List Effect :=
  match acpi_pcc_hbtn_notify w device n.1 n.2 with
  | .error _ => []
  | .ok (_, t) => t

/-! ## Reference states -/

/-- A world with one enumerated ACPI device at address 1 and nothing attached. -/
def world0 : World where
  devices := fun a => if a = 1 then some ⟨7, none, "", "", "MAT001F:00"⟩ else none
  pccs := fun _ => none
  inputs := fun _ => none

/-- An environment in which every step of attach succeeds: the context lands at
address 100, the input device at address 200. -/
def env_ok : alloc_env := ⟨some 100, some 200, 0, 0⟩

/-- The world `world0` after a successful attach of device 1: the context is at
address 100, the registered input device at address 200. -/
def world1 : World :=
  match acpi_pcc_hbtn_add world0 (some 1) env_ok with
  | .ok (_, w, _) => w
  | .error _ => world0

/-- The device `device` is attached in `w`: its driver data is a live context
that points back to it and owns a live, registered input device carrying the
driver's keymap. -/
def attached (w : World) (dv : Nat) (d : acpi_device) (p : Nat) (c : pcc_acpi) (i : Nat) : Prop :=
  w.devices dv = some d ∧ d.driver_data = some p ∧ w.pccs p = some c ∧
  c.device = some dv ∧ c.handle = d.handle ∧ c.input_dev = some i ∧
  ∃ idev, w.inputs i = some idev ∧ idev.keycode = some panasonic_keymap ∧ idev.registered = true

/-! ## Arithmetic of the decoding -/

theorem and_mod_pow_of_lt (r m k : Nat) (hm : m < 2 ^ k) : (r % 2 ^ k) &&& m = r &&& m := by
  apply Nat.eq_of_testBit_eq
  intro j
  simp only [Nat.testBit_and, Nat.testBit_mod_two_pow]
  by_cases hj : j < k
  · simp [hj]
  · have : m.testBit j = false := by
      apply Nat.testBit_lt_two_pow
      calc m < 2 ^ k := hm
        _ ≤ 2 ^ j := Nat.pow_le_pow_right (by decide) (by omega)
    simp [this]

theorem scancode_field (r : Nat) : to_uint ((r % 2 ^ 64) &&& 0xe) = r &&& 0xe := by
  unfold to_uint
  rw [and_mod_pow_of_lt r 0xe 64 (by norm_num)]
  apply Nat.mod_eq_of_lt
  calc r &&& 0xe ≤ 0xe := Nat.and_le_right
    _ < 2 ^ 32 := by norm_num

theorem state_bit (r : Nat) : (r % 2 ^ 64) &&& 0x1 = r &&& 0x1 :=
  and_mod_pow_of_lt r 0x1 64 (by norm_num)

theorem to_int_mod (r : Nat) : to_int (r % 2 ^ 64) = to_int r := by
  unfold to_int
  have h : r % 2 ^ 64 % 2 ^ 32 = r % 2 ^ 32 :=
    Nat.mod_mod_of_dvd r (Nat.pow_dvd_pow 2 (by decide))
  rw [h]

theorem to_int_small (r : Nat) (h : r < 2 ^ 31) : to_int r = (r : Int) := by
  unfold to_int
  have h1 : r % 2 ^ 32 = r := Nat.mod_eq_of_lt (by omega)
  rw [h1, if_pos h]

theorem scancode_field_cases (r : Nat) :
    r &&& 0xe = 0 ∨ r &&& 0xe = 2 ∨ r &&& 0xe = 4 ∨ r &&& 0xe = 6 ∨
    r &&& 0xe = 8 ∨ r &&& 0xe = 10 ∨ r &&& 0xe = 12 ∨ r &&& 0xe = 14 := by
  have h : (r % 2 ^ 4) &&& 0xe = r &&& 0xe := and_mod_pow_of_lt r 0xe 4 (by norm_num)
  rw [← h]
  have hlt : r % 2 ^ 4 < 16 := Nat.mod_lt _ (by norm_num)
  generalize r % 2 ^ 4 = x at hlt
  interval_cases x <;> decide

theorem keymap_scan_panasonic (code : Nat) :
    keymap_scan panasonic_keymap code =
      if code = 0x0 then some ⟨.KE_KEY, 0x0, KEY_RESERVED⟩
      else if code = 0x4 then some ⟨.KE_KEY, 0x4, KEY_SCREENLOCK⟩
      else if code = 0x6 then some ⟨.KE_KEY, 0x6, KEY_DIRECTION⟩
      else if code = 0x8 then some ⟨.KE_KEY, 0x8, KEY_ENTER⟩
      else if code = 0xA then some ⟨.KE_KEY, 0xA, KEY_KEYBOARD⟩
      else none := by
  simp [keymap_scan, panasonic_keymap]


/-- A found entry is one of the table's entries before the terminator, of kind
`KE_KEY`, and carries the scancode asked for. -/
theorem keymap_scan_found (code : Nat) (ke : key_entry)
    (h : keymap_scan panasonic_keymap code = some ke) :
    ke.type = .KE_KEY ∧ ke.code = code := by
  rw [keymap_scan_panasonic] at h
  split_ifs at h with h0 h4 h6 h8 hA
  all_goals (injection h with h; subst h; subst_vars; exact ⟨rfl, rfl⟩)

/-- What the handler does in an attached state when the query succeeds. -/
theorem notify_attached (w : World) (dv : Nat) (d : acpi_device) (p : Nat) (c : pcc_acpi)
    (i : Nat) (r : Nat) (hatt : attached w dv d p c i) :
    acpi_pcc_hbtn_notify w (some dv) HBTN_NOTIFY ⟨AE_OK, r⟩ =
      .ok (w,
        [Effect.acpi_evaluate_integer d.handle METHOD_HBTN_QUERY,
         Effect.acpi_bus_generate_netlink_event d.device_class d.dev_name HBTN_NOTIFY (to_int r)]
        ++ (match keymap_scan panasonic_keymap (r &&& 0xe) with
            | none => []
            | some ke =>
              sparse_keymap_report_entry i ke (if r &&& 0x1 ≠ 0 then 0 else 1) false)) := by
  obtain ⟨hd, hdd, hp, hcd, hch, hci, idev, hi, hk, _⟩ := hatt
  simp only [acpi_pcc_hbtn_notify, acpi_driver_data, hd, hdd, if_true,
    acpi_pcc_generate_keyinput, hp, hcd, hch, hci, sparse_keymap_entry_from_scancode, hi, hk,
    scancode_field, state_bit, to_int_mod, ACPI_SUCCESS]
  cases hs : keymap_scan panasonic_keymap (r &&& 0xe) <;> simp [AE_OK]


/-- The attach of `world0` under `env_ok` succeeds and yields `world1`. -/
theorem add_world0 :
    acpi_pcc_hbtn_add world0 (some 1) env_ok =
      .ok (0, world1,
        [.kzalloc (some 100), .input_allocate_device (some 200),
         .sparse_keymap_setup 200 0, .input_register_device 200 0]) := rfl

/-- In `world1` device 1 is attached. -/
theorem world1_attached :
    attached world1 1 ⟨7, some 100, ACPI_PCC_DEVICE_NAME, ACPI_PCC_CLASS, "MAT001F:00"⟩ 100
      ⟨7, some 1, some 200⟩ 200 :=
  ⟨rfl, rfl, rfl, rfl, rfl, rfl, _, rfl, rfl, rfl⟩

/-- C1: in an attached state, on the notification code 0x80 with a successful
query answering `r`, if the lookup of `r & 0xE` finds the entry `ke`, the handler
makes, after the query and the broadcast, exactly these calls on the input
device: the scancode report, one key event for `ke.keycode` whose value is 1
(pressed) exactly when `r & 1` is 0, and a sync; there is no release pair. -/
theorem C1_mapped_status_emits_one_key_event (w : World) (dv : Nat) (d : acpi_device) (p : Nat)
    (c : pcc_acpi) (i : Nat) (r : Nat) (ke : key_entry)
    (hatt : attached w dv d p c i)
    (hke : keymap_scan panasonic_keymap (r &&& 0xE) = some ke) :
    acpi_pcc_hbtn_notify w (some dv) HBTN_NOTIFY ⟨AE_OK, r⟩ =
      .ok (w,
        [.acpi_evaluate_integer d.handle METHOD_HBTN_QUERY,
         .acpi_bus_generate_netlink_event d.device_class d.dev_name HBTN_NOTIFY (to_int r),
         .input_event i EV_MSC MSC_SCAN (r &&& 0xE),
         .input_event i EV_KEY ke.keycode (if r &&& 1 = 0 then 1 else 0),
         .input_event i EV_SYN SYN_REPORT 0]) := by
  rw [notify_attached w dv d p c i r hatt]
  obtain ⟨hty, hcode⟩ := keymap_scan_found _ _ hke
  have hke2 : keymap_scan panasonic_keymap (r &&& 0xe) = some ke := hke
  simp only [hke2, sparse_keymap_report_entry, hty, hcode, input_report_key, input_sync]
  rcases Nat.mod_two_eq_zero_or_one r with hb | hb <;> simp [Nat.and_one_is_mod, hb]

/-- C1 at the statuses 0x4, 0x5 and 0x9: screen-lock pressed, screen-lock
released, enter released. -/
theorem C1_mapped_status_emits_one_key_event_witness :
    acpi_pcc_hbtn_notify world1 (some 1) HBTN_NOTIFY ⟨AE_OK, 0x4⟩ =
      .ok (world1,
        [.acpi_evaluate_integer 7 "HINF",
         .acpi_bus_generate_netlink_event "pcc" "MAT001F:00" 0x80 4,
         .input_event 200 EV_MSC MSC_SCAN 0x4,
         .input_event 200 EV_KEY KEY_SCREENLOCK 1,
         .input_event 200 EV_SYN SYN_REPORT 0]) ∧
    acpi_pcc_hbtn_notify world1 (some 1) HBTN_NOTIFY ⟨AE_OK, 0x5⟩ =
      .ok (world1,
        [.acpi_evaluate_integer 7 "HINF",
         .acpi_bus_generate_netlink_event "pcc" "MAT001F:00" 0x80 5,
         .input_event 200 EV_MSC MSC_SCAN 0x4,
         .input_event 200 EV_KEY KEY_SCREENLOCK 0,
         .input_event 200 EV_SYN SYN_REPORT 0]) ∧
    acpi_pcc_hbtn_notify world1 (some 1) HBTN_NOTIFY ⟨AE_OK, 0x9⟩ =
      .ok (world1,
        [.acpi_evaluate_integer 7 "HINF",
         .acpi_bus_generate_netlink_event "pcc" "MAT001F:00" 0x80 9,
         .input_event 200 EV_MSC MSC_SCAN 0x8,
         .input_event 200 EV_KEY KEY_ENTER 0,
         .input_event 200 EV_SYN SYN_REPORT 0]) :=
  ⟨C1_mapped_status_emits_one_key_event world1 1 _ 100 _ 200 0x4
      ⟨.KE_KEY, 0x4, KEY_SCREENLOCK⟩ world1_attached rfl,
   C1_mapped_status_emits_one_key_event world1 1 _ 100 _ 200 0x5
      ⟨.KE_KEY, 0x4, KEY_SCREENLOCK⟩ world1_attached rfl,
   C1_mapped_status_emits_one_key_event world1 1 _ 100 _ 200 0x9
      ⟨.KE_KEY, 0x8, KEY_ENTER⟩ world1_attached rfl⟩

/-- C2: the lookup over `panasonic_keymap` returns, for the scancodes 0x0, 0x4,
0x6, 0x8 and 0xA, the entry mapping to KEY_RESERVED, KEY_SCREENLOCK,
KEY_DIRECTION, KEY_ENTER and KEY_KEYBOARD respectively, and nothing for every
other scancode (0x1, 0x2, 0xC, 0xE among them); each of the five scancodes is
carried by exactly one entry before the terminator, and the scancodes before
the terminator are pairwise distinct. -/
theorem C2_keymap_lookup :
    (∀ code : Nat,
      keymap_scan panasonic_keymap code =
        if code = 0x0 then some ⟨.KE_KEY, 0x0, KEY_RESERVED⟩
        else if code = 0x4 then some ⟨.KE_KEY, 0x4, KEY_SCREENLOCK⟩
        else if code = 0x6 then some ⟨.KE_KEY, 0x6, KEY_DIRECTION⟩
        else if code = 0x8 then some ⟨.KE_KEY, 0x8, KEY_ENTER⟩
        else if code = 0xA then some ⟨.KE_KEY, 0xA, KEY_KEYBOARD⟩
        else none) ∧
    keymap_scan panasonic_keymap 0x1 = none ∧
    keymap_scan panasonic_keymap 0x2 = none ∧
    keymap_scan panasonic_keymap 0xC = none ∧
    keymap_scan panasonic_keymap 0xE = none ∧
    (keymap_entries panasonic_keymap).filter (fun e => e.code = 0x0)
      = [⟨.KE_KEY, 0x0, KEY_RESERVED⟩] ∧
    (keymap_entries panasonic_keymap).filter (fun e => e.code = 0x4)
      = [⟨.KE_KEY, 0x4, KEY_SCREENLOCK⟩] ∧
    (keymap_entries panasonic_keymap).filter (fun e => e.code = 0x6)
      = [⟨.KE_KEY, 0x6, KEY_DIRECTION⟩] ∧
    (keymap_entries panasonic_keymap).filter (fun e => e.code = 0x8)
      = [⟨.KE_KEY, 0x8, KEY_ENTER⟩] ∧
    (keymap_entries panasonic_keymap).filter (fun e => e.code = 0xA)
      = [⟨.KE_KEY, 0xA, KEY_KEYBOARD⟩] ∧
    (keymap_entries panasonic_keymap).map key_entry.code = [0x0, 0x4, 0x6, 0x8, 0xA] ∧
    ((keymap_entries panasonic_keymap).map key_entry.code).Nodup := by
  refine ⟨keymap_scan_panasonic, ?_, ?_, ?_, ?_, ?_, ?_, ?_, ?_, ?_, ?_, ?_⟩ <;> decide

/-- C3: in an attached state, on the notification code 0x80 with a successful
query answering `r`, if `r & 0xE` is the scancode of no table entry (then it is
0x2, 0xC or 0xE), the handler returns normally having made only the query and
the broadcast: no call on the input device, so no key event and no sync, and
the memory is unchanged. -/
theorem C3_unmapped_status_emits_nothing (w : World) (dv : Nat) (d : acpi_device) (p : Nat)
    (c : pcc_acpi) (i : Nat) (r : Nat)
    (hatt : attached w dv d p c i)
    (hun : (r &&& 0xE) ∉ (keymap_entries panasonic_keymap).map key_entry.code) :
    (r &&& 0xE = 0x2 ∨ r &&& 0xE = 0xC ∨ r &&& 0xE = 0xE) ∧
    acpi_pcc_hbtn_notify w (some dv) HBTN_NOTIFY ⟨AE_OK, r⟩ =
      .ok (w,
        [.acpi_evaluate_integer d.handle METHOD_HBTN_QUERY,
         .acpi_bus_generate_netlink_event d.device_class d.dev_name HBTN_NOTIFY (to_int r)]) := by
  have hcodes : (keymap_entries panasonic_keymap).map key_entry.code = [0x0, 0x4, 0x6, 0x8, 0xA] := by
    decide
  rw [hcodes] at hun
  simp only [List.mem_cons, List.mem_singleton, List.not_mem_nil, or_false, not_or] at hun
  obtain ⟨h0, h4, h6, h8, hA⟩ := hun
  have hnone : keymap_scan panasonic_keymap (r &&& 0xe) = none := by
    rw [keymap_scan_panasonic]
    simp only [h0, h4, h6, h8, hA, if_false]
  refine ⟨?_, ?_⟩
  · rcases scancode_field_cases r with h | h | h | h | h | h | h | h
    · exact absurd h h0
    · exact Or.inl h
    · exact absurd h h4
    · exact absurd h h6
    · exact absurd h h8
    · exact absurd h hA
    · exact Or.inr (Or.inl h)
    · exact Or.inr (Or.inr h)
  · rw [notify_attached w dv d p c i r hatt, hnone]
    rfl

/-- C3 at the status 0x3 (scancode 0x2): only the query and the broadcast. -/
theorem C3_unmapped_status_emits_nothing_witness :
    (0x3 &&& 0xE = 0x2 ∨ 0x3 &&& 0xE = 0xC ∨ 0x3 &&& 0xE = 0xE) ∧
    acpi_pcc_hbtn_notify world1 (some 1) HBTN_NOTIFY ⟨AE_OK, 0x3⟩ =
      .ok (world1,
        [.acpi_evaluate_integer 7 "HINF",
         .acpi_bus_generate_netlink_event "pcc" "MAT001F:00" 0x80 3]) :=
  C3_unmapped_status_emits_nothing world1 1 _ 100 _ 200 0x3 world1_attached (by decide)

/-- C5: for a device known to the bus and any event code other than 0x80, the
handler returns normally, leaves the memory (the context included) as it was and
makes no call at all: no query, no broadcast, no key event, no sync. -/
theorem C5_unrecognized_event_is_ignored (w : World) (dv : Nat) (d : acpi_device) (event : Nat)
    (q : hinf_reply)
    (hdev : w.devices dv = some d)
    (hev : event ≠ HBTN_NOTIFY) :
    acpi_pcc_hbtn_notify w (some dv) event q = .ok (w, []) := by
  simp [acpi_pcc_hbtn_notify, acpi_driver_data, hdev, hev]

/-- C5 at the event code 0x81 on the attached device of `world1`. -/
theorem C5_unrecognized_event_is_ignored_witness :
    acpi_pcc_hbtn_notify world1 (some 1) 0x81 ⟨AE_OK, 0x4⟩ = .ok (world1, []) :=
  C5_unrecognized_event_is_ignored world1 1 _ 0x81 ⟨AE_OK, 0x4⟩
    (rfl : world1.devices 1
      = some ⟨7, some 100, ACPI_PCC_DEVICE_NAME, ACPI_PCC_CLASS, "MAT001F:00"⟩)
    (by decide)

/-- C6: in an attached state, on the notification code 0x80, when the query
fails the handler returns normally with the memory unchanged, having made the
one query call and nothing else: no broadcast, no key event, no sync, no second
query. -/
theorem C6_failed_query_drops_notification (w : World) (dv : Nat) (d : acpi_device) (p : Nat)
    (c : pcc_acpi) (i : Nat) (status r : Nat)
    (hatt : attached w dv d p c i)
    (hfail : ACPI_SUCCESS status = false) :
    acpi_pcc_hbtn_notify w (some dv) HBTN_NOTIFY ⟨status, r⟩ =
      .ok (w, [.acpi_evaluate_integer d.handle METHOD_HBTN_QUERY]) := by
  obtain ⟨hd, hdd, hp, _, hch, _, _⟩ := hatt
  simp [acpi_pcc_hbtn_notify, acpi_driver_data, hd, hdd, acpi_pcc_generate_keyinput, hp, hch,
    hfail]

/-- C6 at a failing status (1) on the attached device of `world1`. -/
theorem C6_failed_query_drops_notification_witness :
    acpi_pcc_hbtn_notify world1 (some 1) HBTN_NOTIFY ⟨1, 0x4⟩ =
      .ok (world1, [.acpi_evaluate_integer 7 "HINF"]) :=
  C6_failed_query_drops_notification world1 1 _ 100 _ 200 1 0x4 world1_attached (by decide)

/-- Every call of `sparse_keymap_report_entry` is a call of `input_event` on the
device it was given. -/
theorem report_entry_only_input_events (i : Nat) (ke : key_entry) (value : Nat) (ar : Bool) :
    ∀ e ∈ sparse_keymap_report_entry i ke value ar,
      ∃ ty code v, e = Effect.input_event i ty code v := by
  intro e he
  unfold sparse_keymap_report_entry at he
  cases hty : ke.type <;> rw [hty] at he <;>
    simp only [input_report_key, input_report_switch, input_sync, List.mem_append,
      List.mem_cons, List.mem_singleton, List.not_mem_nil, or_false] at he
  case KE_KEY =>
    rcases he with ((he | he) | he) | he
    · exact ⟨_, _, _, he⟩
    · exact ⟨_, _, _, he⟩
    · exact ⟨_, _, _, he⟩
    · split_ifs at he
      · simp only [List.mem_append, List.mem_singleton] at he
        rcases he with he | he
        · exact ⟨_, _, _, he⟩
        · exact ⟨_, _, _, he⟩
      · exact absurd he (List.not_mem_nil e)
  case KE_SW =>
    rcases he with he | he
    · exact ⟨_, _, _, he⟩
    · exact ⟨_, _, _, he⟩
  case KE_VSW =>
    rcases he with he | he
    · exact ⟨_, _, _, he⟩
    · exact ⟨_, _, _, he⟩

/-- In an attached state the handler always returns, and returns the memory it
was given. -/
theorem notify_returns (w : World) (dv : Nat) (d : acpi_device) (p : Nat) (c : pcc_acpi)
    (i : Nat) (hatt : attached w dv d p c i) (event : Nat) (q : hinf_reply) :
    ∃ t, acpi_pcc_hbtn_notify w (some dv) event q = .ok (w, t) := by
  by_cases hev : event = HBTN_NOTIFY
  · subst hev
    obtain ⟨status, r⟩ := q
    by_cases hs : status = AE_OK
    · subst hs
      exact ⟨_, notify_attached w dv d p c i r hatt⟩
    · obtain ⟨hd, hdd, hp, _, hch, _, _⟩ := hatt
      refine ⟨[.acpi_evaluate_integer d.handle METHOD_HBTN_QUERY], ?_⟩
      simp [acpi_pcc_hbtn_notify, acpi_driver_data, hd, hdd, acpi_pcc_generate_keyinput, hp,
        hch, ACPI_SUCCESS, hs]
  · obtain ⟨hd, _⟩ := hatt
    exact ⟨[], by simp [acpi_pcc_hbtn_notify, acpi_driver_data, hd, hev]⟩

/-- C4 as stated fails: the status 0x100000004 (2^32 + 4) is broadcast with
payload 4, the low 32 bits the `int` parameter of the broadcast keeps, and no
broadcast of that notification carries 0x100000004. -/
theorem C4_counterexample :
    ∃ t, acpi_pcc_hbtn_notify world1 (some 1) HBTN_NOTIFY ⟨AE_OK, 0x100000004⟩ = .ok (world1, t) ∧
      t = [.acpi_evaluate_integer 7 "HINF",
           .acpi_bus_generate_netlink_event "pcc" "MAT001F:00" 0x80 4,
           .input_event 200 EV_MSC MSC_SCAN 0x4,
           .input_event 200 EV_KEY KEY_SCREENLOCK 1,
           .input_event 200 EV_SYN SYN_REPORT 0] ∧
      ∀ cls id ty, Effect.acpi_bus_generate_netlink_event cls id ty 0x100000004 ∉ t := by
  refine ⟨[.acpi_evaluate_integer 7 "HINF",
           .acpi_bus_generate_netlink_event "pcc" "MAT001F:00" 0x80 4,
           .input_event 200 EV_MSC MSC_SCAN 0x4,
           .input_event 200 EV_KEY KEY_SCREENLOCK 1,
           .input_event 200 EV_SYN SYN_REPORT 0], rfl, rfl, ?_⟩
  intro cls id ty h
  simp at h

/-- C4, amended: in an attached state, on the notification code 0x80 with a
successful query answering `r`, the handler makes exactly one broadcast, right
after the query, carrying the device class, the device id, the code 0x80 and
the status converted to `int` (which is `r` itself whenever `r < 2^31`); every
later call is an input event, and the broadcast is there whatever the lookup of
`r & 0xE` gives. -/
theorem C4_broadcast_is_unconditional (w : World) (dv : Nat) (d : acpi_device) (p : Nat)
    (c : pcc_acpi) (i : Nat) (r : Nat)
    (hatt : attached w dv d p c i) :
    (∃ tail,
      acpi_pcc_hbtn_notify w (some dv) HBTN_NOTIFY ⟨AE_OK, r⟩ =
        .ok (w,
          [.acpi_evaluate_integer d.handle METHOD_HBTN_QUERY,
           .acpi_bus_generate_netlink_event d.device_class d.dev_name HBTN_NOTIFY (to_int r)]
          ++ tail) ∧
      ∀ e ∈ tail, ∃ ty code v, e = Effect.input_event i ty code v) ∧
    (r < 2 ^ 31 → to_int r = (r : Int)) := by
  refine ⟨⟨_, notify_attached w dv d p c i r hatt, ?_⟩, to_int_small r⟩
  intro e he
  cases hs : keymap_scan panasonic_keymap (r &&& 0xe) with
  | none => rw [hs] at he; exact absurd he (by simp)
  | some ke => rw [hs] at he; exact report_entry_only_input_events i ke _ false e he

/-- C4, amended, at the status 0x3, whose lookup fails: the broadcast carries 3. -/
theorem C4_broadcast_is_unconditional_witness :
    (∃ tail,
      acpi_pcc_hbtn_notify world1 (some 1) HBTN_NOTIFY ⟨AE_OK, 0x3⟩ =
        .ok (world1,
          [.acpi_evaluate_integer 7 "HINF",
           .acpi_bus_generate_netlink_event "pcc" "MAT001F:00" HBTN_NOTIFY (to_int 0x3)]
          ++ tail) ∧
      ∀ e ∈ tail, ∃ ty code v, e = Effect.input_event 200 ty code v) ∧
    (0x3 < 2 ^ 31 → to_int 0x3 = ((0x3 : Nat) : Int)) :=
  C4_broadcast_is_unconditional world1 1 _ 100 _ 200 0x3 world1_attached

/-- C10: in an attached state, for every sequence of notifications (event code
and hardware reply), delivering them one after the other returns, leaves the
memory as it was, and makes the calls each notification makes when handled alone
in that same state, concatenated in order. -/
theorem C10_notifications_are_independent (w : World) (dv : Nat) (d : acpi_device) (p : Nat)
    (c : pcc_acpi) (i : Nat) (ns : List (Nat × hinf_reply))
    (hatt : attached w dv d p c i) :
    deliver w (some dv) ns = .ok (w, (ns.map (effects_alone w (some dv))).flatten) := by
  induction ns with
  | nil => rfl
  | cons n rest ih =>
    obtain ⟨event, q⟩ := n
    obtain ⟨t, ht⟩ := notify_returns w dv d p c i hatt event q
    simp only [deliver, ht, ih, effects_alone, List.map_cons, List.flatten_cons]

/-- C10 at two consecutive press statuses 0x4, 0x4: each emits the screen-lock
press, the second exactly as the first. -/
theorem C10_notifications_are_independent_witness :
    deliver world1 (some 1) [(HBTN_NOTIFY, ⟨AE_OK, 0x4⟩), (HBTN_NOTIFY, ⟨AE_OK, 0x4⟩)] =
      .ok (world1,
        [.acpi_evaluate_integer 7 "HINF",
         .acpi_bus_generate_netlink_event "pcc" "MAT001F:00" 0x80 4,
         .input_event 200 EV_MSC MSC_SCAN 0x4,
         .input_event 200 EV_KEY KEY_SCREENLOCK 1,
         .input_event 200 EV_SYN SYN_REPORT 0,
         .acpi_evaluate_integer 7 "HINF",
         .acpi_bus_generate_netlink_event "pcc" "MAT001F:00" 0x80 4,
         .input_event 200 EV_MSC MSC_SCAN 0x4,
         .input_event 200 EV_KEY KEY_SCREENLOCK 1,
         .input_event 200 EV_SYN SYN_REPORT 0]) :=
  C10_notifications_are_independent world1 1 _ 100 _ 200
    [(HBTN_NOTIFY, ⟨AE_OK, 0x4⟩), (HBTN_NOTIFY, ⟨AE_OK, 0x4⟩)] world1_attached

/-- Storing twice at one address keeps the second store. -/
theorem poke_poke {α : Type} (h : Nat → Option α) (a : Nat) (u v : Option α) :
    poke (poke h a u) a v = poke h a v := by
  funext b
  unfold poke
  split_ifs <;> rfl

/-- Clearing an address that was free changes nothing. -/
theorem poke_none_of_free {α : Type} (h : Nat → Option α) (a : Nat) (hfree : h a = none) :
    poke h a none = h := by
  funext b
  unfold poke
  split_ifs with hb
  · rw [hb, hfree]
  · rfl

/-- Reading the address just stored. -/
theorem poke_same {α : Type} (h : Nat → Option α) (a : Nat) (v : Option α) :
    poke h a v a = v := by
  simp [poke]

/-- A successful attach leaves the device attached, and made exactly the four
creating calls. -/
theorem add_success_attached (w : World) (dv : Nat) (env : alloc_env) (w1 : World)
    (t : List Effect) (h : acpi_pcc_hbtn_add w (some dv) env = .ok (0, w1, t)) :
    ∃ d p i,
      w.devices dv = some d ∧ env.kzalloc = some p ∧ env.input_allocate_device = some i ∧
      attached w1 dv
        { d with driver_data := some p, device_name := ACPI_PCC_DEVICE_NAME,
                 device_class := ACPI_PCC_CLASS }
        p ⟨d.handle, some dv, some i⟩ i ∧
      t = [.kzalloc (some p), .input_allocate_device (some i),
           .sparse_keymap_setup i 0, .input_register_device i 0] := by
  obtain ⟨kz, ia, se, re⟩ := env
  cases kz with
  | none => simp [acpi_pcc_hbtn_add, ENOMEM] at h
  | some p =>
    cases hd : w.devices dv with
    | none => simp [acpi_pcc_hbtn_add, hd] at h
    | some d =>
      cases ia with
      | none =>
        simp [acpi_pcc_hbtn_add, hd, acpi_pcc_init_input, ENOMEM, kfree, poke_same] at h
      | some i =>
        by_cases hse : se = 0
        · by_cases hre : re = 0
          · subst hse; subst hre
            simp only [acpi_pcc_hbtn_add, hd, acpi_pcc_init_input, sparse_keymap_setup,
              input_register_device, poke_same, poke_poke, ne_eq, not_true_eq_false, if_false,
              Except.ok.injEq, Prod.mk.injEq, true_and] at h
            obtain ⟨hw, ht⟩ := h
            subst hw; subst ht
            refine ⟨d, p, i, rfl, rfl, rfl, ⟨?_, rfl, ?_, rfl, rfl, rfl, ?_⟩, rfl⟩
            · simp [poke_same]
            · simp [poke_same, pcc_zero]
            · refine ⟨_, poke_same _ _ _, ?_, rfl⟩
              rfl
          · subst hse
            simp [acpi_pcc_hbtn_add, hd, acpi_pcc_init_input, sparse_keymap_setup,
              input_register_device, sparse_keymap_free, input_free_device, kfree, poke_same,
              poke_poke, hre] at h
        · simp [acpi_pcc_hbtn_add, hd, acpi_pcc_init_input, sparse_keymap_setup,
            input_free_device, kfree, poke_same, poke_poke, hse] at h

/-- Detach of an attached device: returns 0 after exactly three releasing calls;
afterwards the context and the input device are gone and the device record is
as before. -/
theorem remove_attached (w : World) (dv : Nat) (d : acpi_device) (p : Nat) (c : pcc_acpi)
    (i : Nat) (hatt : attached w dv d p c i) :
    acpi_pcc_hbtn_remove w (some dv) =
      .ok (0, { w with pccs := poke w.pccs p none, inputs := poke w.inputs i none },
        [.sparse_keymap_free i, .input_unregister_device i, .kfree p]) := by
  obtain ⟨hd, hdd, hp, _, _, hci, idev, hi, _, _⟩ := hatt
  simp [acpi_pcc_hbtn_remove, acpi_driver_data, hd, hdd, acpi_pcc_destroy_input, hp, hci,
    sparse_keymap_free, hi, input_unregister_device, poke_same, poke_poke, kfree]

/-- Detach of a device whose driver data is null: -EINVAL, no call, memory
unchanged. -/
theorem remove_null_driver_data (w : World) (dv : Nat) (d : acpi_device)
    (hd : w.devices dv = some d) (hdd : d.driver_data = none) :
    acpi_pcc_hbtn_remove w (some dv) = .ok (-EINVAL, w, []) := by
  simp [acpi_pcc_hbtn_remove, acpi_driver_data, hd, hdd]

/-- C7 as stated fails: after the attach of `world0` and a first detach, which
both return 0, the device still carries the address of the released context, so
the second detach passes the null test and reads the released context instead
of returning -EINVAL. -/
theorem C7_counterexample :
    ∃ w1 t1 w2 t2,
      acpi_pcc_hbtn_add world0 (some 1) env_ok = .ok (0, w1, t1) ∧
      acpi_pcc_hbtn_remove w1 (some 1) = .ok (0, w2, t2) ∧
      acpi_driver_data w2 (some 1) = .ok (some 100) ∧
      w2.pccs 100 = none ∧
      acpi_pcc_hbtn_remove w2 (some 1) = .error .invalid_access ∧
      ∀ w3 t3, acpi_pcc_hbtn_remove w2 (some 1) ≠ .ok (-EINVAL, w3, t3) := by
  refine ⟨_, _, _, _, rfl, rfl, rfl, rfl, rfl, ?_⟩
  intro w3 t3 h
  exact absurd (show (Except.error Fault.invalid_access : Except Fault (Int × World × List Effect))
    = .ok (-EINVAL, w3, t3) from h) (by simp)

/-- C7, amended: after a successful attach, the detach returns 0; over attach and
detach together the keymap copy, the input endpoint and the context are each
released by exactly one call; both are gone from memory afterwards; and once the
device's driver data has been reset to null, a further detach returns -EINVAL,
makes no call and leaves the memory unchanged. -/
theorem C7_detach_after_attach (w : World) (dv : Nat) (env : alloc_env) (w1 : World)
    (t1 : List Effect)
    (hadd : acpi_pcc_hbtn_add w (some dv) env = .ok (0, w1, t1)) :
    ∃ p i w2 d2,
      acpi_pcc_hbtn_remove w1 (some dv) =
        .ok (0, w2, [.sparse_keymap_free i, .input_unregister_device i, .kfree p]) ∧
      t1 ++ [.sparse_keymap_free i, .input_unregister_device i, .kfree p] =
        [.kzalloc (some p), .input_allocate_device (some i), .sparse_keymap_setup i 0,
         .input_register_device i 0, .sparse_keymap_free i, .input_unregister_device i,
         .kfree p] ∧
      w2.pccs p = none ∧ w2.inputs i = none ∧
      w2.devices dv = some d2 ∧
      acpi_pcc_hbtn_remove
          { w2 with devices := poke w2.devices dv (some { d2 with driver_data := none }) }
          (some dv) =
        .ok (-EINVAL,
          { w2 with devices := poke w2.devices dv (some { d2 with driver_data := none }) }, []) := by
  obtain ⟨d, p, i, _, _, _, hatt, ht⟩ := add_success_attached w dv env w1 t1 hadd
  refine ⟨p, i, _, _, remove_attached w1 dv _ p _ i hatt, ?_, ?_, ?_, hatt.1, ?_⟩
  · rw [ht]; rfl
  · exact poke_same _ _ _
  · exact poke_same _ _ _
  · exact remove_null_driver_data _ dv _ (poke_same _ _ _) rfl

/-- C7, amended, at the attach of `world0` under `env_ok`. -/
theorem C7_detach_after_attach_witness :
    ∃ p i w2 d2,
      acpi_pcc_hbtn_remove world1 (some 1) =
        .ok (0, w2, [.sparse_keymap_free i, .input_unregister_device i, .kfree p]) ∧
      [Effect.kzalloc (some 100), .input_allocate_device (some 200),
        .sparse_keymap_setup 200 0, .input_register_device 200 0]
         ++ [.sparse_keymap_free i, .input_unregister_device i, .kfree p] =
        [.kzalloc (some p), .input_allocate_device (some i), .sparse_keymap_setup i 0,
         .input_register_device i 0, .sparse_keymap_free i, .input_unregister_device i,
         .kfree p] ∧
      w2.pccs p = none ∧ w2.inputs i = none ∧
      w2.devices 1 = some d2 ∧
      acpi_pcc_hbtn_remove
          { w2 with devices := poke w2.devices 1 (some { d2 with driver_data := none }) }
          (some 1) =
        .ok (-EINVAL,
          { w2 with devices := poke w2.devices 1 (some { d2 with driver_data := none }) }, []) :=
  C7_detach_after_attach world0 1 env_ok world1 _ add_world0

/-- C8 fails on the code for a null device: the context pointer is loaded
through `device` before `device` is tested, so the call reads through the null
pointer and never reaches the `return -EINVAL`. -/
theorem C8_remove_null_device_reads_through_null (w : World) :
    acpi_pcc_hbtn_remove w none = .error .null_deref := rfl

/-- C9 as stated fails: when the input device cannot be allocated the attach of
`world0` returns -ENOMEM with the context at address 100 released, and the
device still carries that address as its driver data. -/
theorem C9_counterexample :
    ∃ w1 t,
      acpi_pcc_hbtn_add world0 (some 1) ⟨some 100, none, 0, 0⟩ = .ok (-ENOMEM, w1, t) ∧
      w1.pccs 100 = none ∧
      acpi_driver_data w1 (some 1) = .ok (some 100) :=
  ⟨_, _, rfl, rfl, rfl⟩

/-- Attach when the input device cannot be allocated. -/
theorem add_fails_at_input_allocation (w : World) (dv : Nat) (d : acpi_device) (p : Nat)
    (se re : Int) (hdev : w.devices dv = some d) :
    acpi_pcc_hbtn_add w (some dv) ⟨some p, none, se, re⟩ =
      .ok (-ENOMEM,
        { devices := poke w.devices dv
            (some { d with driver_data := some p, device_name := ACPI_PCC_DEVICE_NAME,
                           device_class := ACPI_PCC_CLASS }),
          pccs := poke w.pccs p none,
          inputs := w.inputs },
        [.kzalloc (some p), .input_allocate_device none, .kfree p]) := by
  simp [acpi_pcc_hbtn_add, hdev, acpi_pcc_init_input, ENOMEM, kfree, poke_same, poke_poke]

/-- Attach when the keymap setup fails with `se`. -/
theorem add_fails_at_keymap_setup (w : World) (dv : Nat) (d : acpi_device) (p i : Nat)
    (se re : Int) (hdev : w.devices dv = some d) (hse : se ≠ 0) :
    acpi_pcc_hbtn_add w (some dv) ⟨some p, some i, se, re⟩ =
      .ok (se,
        { devices := poke w.devices dv
            (some { d with driver_data := some p, device_name := ACPI_PCC_DEVICE_NAME,
                           device_class := ACPI_PCC_CLASS }),
          pccs := poke w.pccs p none,
          inputs := poke w.inputs i none },
        [.kzalloc (some p), .input_allocate_device (some i), .sparse_keymap_setup i se,
         .input_free_device i, .kfree p]) := by
  simp [acpi_pcc_hbtn_add, hdev, acpi_pcc_init_input, sparse_keymap_setup,
    input_free_device, kfree, poke_same, poke_poke, hse]

/-- Attach when the registration fails with `re`. -/
theorem add_fails_at_registration (w : World) (dv : Nat) (d : acpi_device) (p i : Nat)
    (re : Int) (hdev : w.devices dv = some d) (hre : re ≠ 0) :
    acpi_pcc_hbtn_add w (some dv) ⟨some p, some i, 0, re⟩ =
      .ok (re,
        { devices := poke w.devices dv
            (some { d with driver_data := some p, device_name := ACPI_PCC_DEVICE_NAME,
                           device_class := ACPI_PCC_CLASS }),
          pccs := poke w.pccs p none,
          inputs := poke w.inputs i none },
        [.kzalloc (some p), .input_allocate_device (some i), .sparse_keymap_setup i 0,
         .input_register_device i re, .sparse_keymap_free i, .input_free_device i,
         .kfree p]) := by
  simp [acpi_pcc_hbtn_add, hdev, acpi_pcc_init_input, sparse_keymap_setup,
    input_register_device, sparse_keymap_free, input_free_device, kfree, poke_same,
    poke_poke, hre]

/-- C9, amended: for a device known to the bus and an allocator that hands out
unused addresses, whenever the context allocation, the input device allocation,
the keymap setup or the registration fails, attach returns that error (nonzero)
with the context heap and the input device heap exactly as before the call (so
nothing it created is left and no input endpoint is left registered), and every
creating call it made is paired with its releasing call: `kzalloc` with `kfree`,
`input_allocate_device` with `input_free_device`, a successful
`sparse_keymap_setup` with `sparse_keymap_free`. -/
theorem C9_failed_attach_releases_everything (w : World) (dv : Nat) (d : acpi_device)
    (env : alloc_env)
    (hdev : w.devices dv = some d)
    (hfreshp : ∀ p, env.kzalloc = some p → w.pccs p = none)
    (hfreshi : ∀ i, env.input_allocate_device = some i → w.inputs i = none)
    (hfail : env.kzalloc = none ∨ env.input_allocate_device = none ∨
      env.sparse_keymap_setup ≠ 0 ∨ env.input_register_device ≠ 0) :
    ∃ rc w1 t,
      acpi_pcc_hbtn_add w (some dv) env = .ok (rc, w1, t) ∧
      rc ≠ 0 ∧
      rc = (if env.kzalloc = none then -ENOMEM
            else if env.input_allocate_device = none then -ENOMEM
            else if env.sparse_keymap_setup ≠ 0 then env.sparse_keymap_setup
            else env.input_register_device) ∧
      w1.pccs = w.pccs ∧ w1.inputs = w.inputs ∧
      (∀ p, Effect.kzalloc (some p) ∈ t → Effect.kfree p ∈ t) ∧
      (∀ i, Effect.input_allocate_device (some i) ∈ t → Effect.input_free_device i ∈ t) ∧
      (∀ i, Effect.sparse_keymap_setup i 0 ∈ t → Effect.sparse_keymap_free i ∈ t) ∧
      (∀ i, Effect.input_register_device i 0 ∉ t) := by
  obtain ⟨kz, ia, se, re⟩ := env
  cases kz with
  | none =>
    refine ⟨-ENOMEM, w, [.kzalloc none], rfl, by decide, by simp, rfl, rfl, ?_, ?_, ?_, ?_⟩ <;>
      simp
  | some p =>
    have hp : poke w.pccs p none = w.pccs := poke_none_of_free _ _ (hfreshp p rfl)
    cases ia with
    | none =>
      refine ⟨_, _, _, add_fails_at_input_allocation w dv d p se re hdev, by decide, by simp,
        hp, rfl, ?_, ?_, ?_, ?_⟩ <;> simp
    | some i =>
      have hi : poke w.inputs i none = w.inputs := poke_none_of_free _ _ (hfreshi i rfl)
      by_cases hse : se = 0
      · have hre : re ≠ 0 := by
          rcases hfail with h | h | h | h
          · exact absurd h (by simp)
          · exact absurd h (by simp)
          · exact absurd hse h
          · exact h
        subst hse
        refine ⟨_, _, _, add_fails_at_registration w dv d p i re hdev hre, hre, by simp,
          hp, hi, ?_, ?_, ?_, ?_⟩ <;> simp [hre, Ne.symm hre]
      · refine ⟨_, _, _, add_fails_at_keymap_setup w dv d p i se re hdev hse, hse, by simp [hse],
          hp, hi, ?_, ?_, ?_, ?_⟩ <;> simp [hse, Ne.symm hse]

/-- C9, amended, at a registration that fails with -16 in `world0`. -/
theorem C9_failed_attach_releases_everything_witness :
    ∃ rc w1 t,
      acpi_pcc_hbtn_add world0 (some 1) ⟨some 100, some 200, 0, -16⟩ = .ok (rc, w1, t) ∧
      rc ≠ 0 ∧
      rc = (if (⟨some 100, some 200, 0, -16⟩ : alloc_env).kzalloc = none then -ENOMEM
            else if (⟨some 100, some 200, 0, -16⟩ : alloc_env).input_allocate_device = none
              then -ENOMEM
            else if (⟨some 100, some 200, 0, -16⟩ : alloc_env).sparse_keymap_setup ≠ 0
              then (⟨some 100, some 200, 0, -16⟩ : alloc_env).sparse_keymap_setup
            else (⟨some 100, some 200, 0, -16⟩ : alloc_env).input_register_device) ∧
      w1.pccs = world0.pccs ∧ w1.inputs = world0.inputs ∧
      (∀ p, Effect.kzalloc (some p) ∈ t → Effect.kfree p ∈ t) ∧
      (∀ i, Effect.input_allocate_device (some i) ∈ t → Effect.input_free_device i ∈ t) ∧
      (∀ i, Effect.sparse_keymap_setup i 0 ∈ t → Effect.sparse_keymap_free i ∈ t) ∧
      (∀ i, Effect.input_register_device i 0 ∉ t) :=
  C9_failed_attach_releases_everything world0 1 _ ⟨some 100, some 200, 0, -16⟩ rfl
    (fun _ _ => rfl) (fun _ _ => rfl) (Or.inr (Or.inr (Or.inr (by decide))))

end PanasonicHbtn
